import Mathlib

/-!
Verification development for the azure-logging-tool repository.

The file shallowly embeds the core of the repository in Lean 4:

* `src/core/response_parser.py` — the row-tolerant response parsers,
* `src/core/query_builder.py` — the KQL query renderer,
* `src/models/config.py` — environment-variable configuration,
* `src/core/azure_client.py` — the lazy client manager, and
* `src/services/*.py` — the domain services' control flow.

Loosely-typed Python row cells are modelled by the `Value` inductive;
Python exceptions relevant to the control flow are modelled by `Exc`.
CPython primitives used by the code (`int(...)`, `float(...)`, truthiness,
list indexing) are modelled by executable functions `pyInt`, `pyFloat`,
`pyTruthy`, `rowGet`, restricted to the value domain `Value`.
-/

namespace AzureLoggingTool

/-- Model of a loosely-typed cell of an Azure Monitor result row (Python `Any`):
null, integer, float (modelled exactly as a rational), string, datetime
(abstracted to a tick count; always truthy, like Python datetimes), or a
string-keyed dictionary. -/
inductive Value
| vnull
| vint (n : Int)
| vfloat (q : Rat)
| vstr (s : String)
| vtime (t : Nat)
| vdict (kvs : List (String × String))
deriving DecidableEq

/-- Model of the exception classes that steer control flow in the repository:
the built-ins caught by the parsers, the azure-core transport exceptions, and
the three typed errors of `src/models/exceptions.py`. `resourceNotFoundError`
and `clientAuthenticationError` are subclasses of `HttpResponseError` in
azure-core, which `isHttpResponseError` below reflects. -/
inductive Exc
| indexError
| typeError
| valueError
| keyError
| httpResponseError
| resourceNotFoundError
| clientAuthenticationError
| authenticationError
| configurationError
| queryError
deriving DecidableEq

/-- Python truthiness on the modelled value domain: `None`, `0`, `0.0`, the
empty string and the empty dict are falsy; datetimes are always truthy. -/
def pyTruthy : Value → Bool
| .vnull => false
| .vint n => n != 0
| .vfloat q => q != 0
| .vstr s => s != ""
| .vtime _ => true
| .vdict kvs => !kvs.isEmpty

/-- Python `x or d` on cell values: `x` when truthy, else the default `d`. -/
def pyOr (v d : Value) : Value := if pyTruthy v then v else d

/-- Python `x or 0`, the idiom used for numeric defaulting by the parsers. -/
def pyOrZero (v : Value) : Value := pyOr v (.vint 0)

/-- Numeric value of a list of decimal digit characters. -/
def natValOfDigits (cs : List Char) : Nat :=
  cs.foldl (fun a c => 10 * a + (c.toNat - 48)) 0

/-- Digit-string reader: `some` of the value when the list is a nonempty run
of decimal digits, else `none`. -/
def digitsVal (cs : List Char) : Option Nat :=
  if cs.isEmpty then none
  else if cs.all (fun c => c.isDigit) then some (natValOfDigits cs) else none

/-- Strip of leading and trailing whitespace, the `str.strip()` behaviour
CPython applies inside numeric conversion. -/
def stripSpaces (cs : List Char) : List Char :=
  (((cs.dropWhile (fun c => c.isWhitespace)).reverse.dropWhile
    (fun c => c.isWhitespace))).reverse

/-- Model of CPython `int` applied to a string: surrounding whitespace is
stripped, an optional sign precedes a nonempty digit run. (Exotic accepted
forms such as digit-group underscores are outside the model; no claim
depends on them.) -/
def pyIntOfStr (s : String) : Option Int :=
  match stripSpaces s.data with
  | '+' :: rest => (digitsVal rest).map (fun n => (n : Int))
  | '-' :: rest => (digitsVal rest).map (fun n => -(n : Int))
  | rest => (digitsVal rest).map (fun n => (n : Int))

/-- Unsigned-decimal part of the CPython `float` string model: a digit run,
optionally followed by a point and a further digit run, at least one digit
in total. -/
def pyFloatDigits (cs : List Char) : Option Rat :=
  let ip := cs.takeWhile (fun c => c.isDigit)
  match cs.dropWhile (fun c => c.isDigit) with
  | [] => if ip.isEmpty then none else some ((natValOfDigits ip : Nat) : Rat)
  | '.' :: rest2 =>
    let fp := rest2.takeWhile (fun c => c.isDigit)
    if (rest2.dropWhile (fun c => c.isDigit)).isEmpty && !(ip.isEmpty && fp.isEmpty) then
      some ((natValOfDigits ip : Rat) + (natValOfDigits fp : Rat) / ((10 : Rat) ^ fp.length))
    else none
  | _ => none

/-- Model of CPython `float` applied to a string: optional sign around
`pyFloatDigits` (exponent/inf/nan forms outside the model; no claim depends
on them). -/
def pyFloatOfStr (s : String) : Option Rat :=
  match stripSpaces s.data with
  | '+' :: rest => pyFloatDigits rest
  | '-' :: rest => (pyFloatDigits rest).map (fun q => -q)
  | rest => pyFloatDigits rest

/-- Model of CPython `int(v)` on the value domain: identity on integers,
truncation toward zero on floats, string parsing raising `ValueError` on
malformed text, `TypeError` on null, datetimes and dicts. -/
def pyInt : Value → Except Exc Int
| .vint n => .ok n
| .vfloat q => .ok (q.num.tdiv (q.den : Int))
| .vstr s =>
  match pyIntOfStr s with
  | some n => .ok n
  | none => .error .valueError
| .vnull => .error .typeError
| .vtime _ => .error .typeError
| .vdict _ => .error .typeError

/-- Model of CPython `float(v)` on the value domain. -/
def pyFloat : Value → Except Exc Rat
| .vint n => .ok (n : Rat)
| .vfloat q => .ok q
| .vstr s =>
  match pyFloatOfStr s with
  | some q => .ok q
  | none => .error .valueError
| .vnull => .error .typeError
| .vtime _ => .error .typeError
| .vdict _ => .error .typeError

/-- Python list indexing `row[i]`: the element, or `IndexError` out of range. -/
def rowGet (row : List Value) (i : Nat) : Except Exc Value :=
  match row.get? i with
  | some v => .ok v
  | none => .error .indexError

/-- Exception kinds caught by every per-row `except` clause of
`response_parser.py`: `(IndexError, TypeError, ValueError)`. -/
def caught : Exc → Bool
| .indexError => true
| .typeError => true
| .valueError => true
| _ => false

/-- Result is either a success or an exception the row loop catches. -/
def errOk {α : Type} : Except Exc α → Bool
| .ok _ => true
| .error e => caught e

/-- Plain success test on a result. -/
def resOk {α : Type} : Except Exc α → Bool
| .ok _ => true
| .error _ => false

/-- String rendering used by `str(row[5])` in the raw-properties fallback;
the rendering itself is irrelevant to every claim. -/
def pyStr : Value → String
| .vnull => "None"
| .vint n => toString n
| .vfloat q => toString q
| .vstr s => s
| .vtime t => toString t
| .vdict _ => "dict"

/- ## Entities (`src/models/entities.py`) -/

/-- One parsed log row (`FunctionAppLogEntry` of `entities.py`). The
`exception_type` and `exception_message` fields are always `None` for rows
coming from the traces table (`response_parser.py` lines 42-43). -/
structure FunctionAppLogEntry where
  timestamp : Value
  level : String
  message : Value
  function_name : Value
  invocation_id : Value
  exception_type : Option Value
  exception_message : Option Value
  custom_properties : Option Value
deriving DecidableEq

/-- One parsed metrics row (`FunctionAppMetrics` of `entities.py`). -/
structure FunctionAppMetrics where
  timestamp : Value
  total_invocations : Int
  successful_invocations : Int
  failed_invocations : Int
  avg_duration_ms : Rat
  unique_functions : Int
deriving DecidableEq

/-- One error-group record built by `parse_error_analysis_response`. -/
structure ErrorInfo where
  function_name : Value
  exception_type : Value
  exception_message : Value
  count : Int
deriving DecidableEq

/-- Aggregate error analysis (`ErrorAnalysis` of `entities.py`). -/
structure ErrorAnalysis where
  errors : List ErrorInfo
  total_errors : Int
  unique_error_types : Nat
  time_range_hours : Int
  function_app_name : String
deriving DecidableEq

/-- One function-performance record built by
`parse_function_performance_response`. -/
structure FunctionPerformanceRecord where
  function_name : Value
  invocation_count : Int
  avg_duration_ms : Rat
  min_duration_ms : Rat
  max_duration_ms : Rat
  p95_duration_ms : Rat
  success_rate : Rat
deriving DecidableEq

/-- One timeline point built by `parse_timeline_response`. -/
structure TimelinePoint where
  timestamp : Value
  requests : Int
  errors : Int
  traces : Int
deriving DecidableEq

/- ## Response parser (`src/core/response_parser.py`) -/

/-- Severity map of `parse_log_response` (lines 20-25) together with the
`dict.get(..., "Unknown")` default. -/
def severity_map (n : Int) : String :=
  if n = 0 then "Verbose"
  else if n = 1 then "Information"
  else if n = 2 then "Warning"
  else if n = 3 then "Error"
  else "Unknown"

/-- Severity cell conversion of `parse_log_response` line 38:
`severity_map.get(int(row[1]), "Unknown") if row[1] is not None else "Unknown"`. -/
def severityLevel (v : Value) : Except Exc String :=
  match v with
  | .vnull => .ok ("Unknown")
  | w =>
    match pyInt w with
    | .ok n => .ok (severity_map n)
    | .error e => .error e

/-- Custom-properties block of `parse_log_response` lines 29-34, parameterised
by a model `jd` of `json.loads` (an external stdlib collaborator): a guarded
read of `row[5]`, JSON decoding of string cells with the raw-string fallback
`Dictionary with key raw` on decode failure. -/
def logCustomProps (jd : String → Option Value) (row : List Value) : Option Value :=
  match row.get? 5 with
  | some v =>
    if pyTruthy v then
      some (match v with
        | .vstr s =>
          match jd s with
          | some j => j
          | none => .vdict [("raw", pyStr v)]
        | w => w)
    else none
  | none => none

/-- Conversion of one log row (`parse_log_response` loop body, lines 27-46). -/
def parseLogRow (jd : String → Option Value) (now : Value) (row : List Value) :
    Except Exc FunctionAppLogEntry := do
  let custom_props := logCustomProps jd row
  let t0 ← rowGet row 0
  let s1 ← rowGet row 1
  let level ← severityLevel s1
  let m2 ← rowGet row 2
  let fn ← rowGet row 3
  let inv ← rowGet row 4
  pure { timestamp := pyOr t0 now
         level := level
         message := pyOr m2 (.vstr (""))
         function_name := fn
         invocation_id := inv
         exception_type := none
         exception_message := none
         custom_properties := custom_props }

/-- Conversion of one metrics row (`parse_metrics_response` loop body,
lines 56-66): column order (timestamp, total, successful, failed,
avg-duration, unique-functions), each numeric cell read as `int(cell or 0)`
resp. `float(cell or 0)`. -/
def parseMetricsRow (now : Value) (row : List Value) :
    Except Exc FunctionAppMetrics := do
  let t0 ← rowGet row 0
  let v1 ← rowGet row 1
  let total ← pyInt (pyOrZero v1)
  let v2 ← rowGet row 2
  let succ ← pyInt (pyOrZero v2)
  let v3 ← rowGet row 3
  let failed ← pyInt (pyOrZero v3)
  let v4 ← rowGet row 4
  let avg ← pyFloat (pyOrZero v4)
  let v5 ← rowGet row 5
  let uniq ← pyInt (pyOrZero v5)
  pure { timestamp := pyOr t0 now
         total_invocations := total
         successful_invocations := succ
         failed_invocations := failed
         avg_duration_ms := avg
         unique_functions := uniq }

/-- Conversion of one error-analysis row (`parse_error_analysis_response`
loop body, lines 78-87): string cells default to the text `Unknown` when
falsy, the count cell is `int(row[3] or 0)`. -/
def parseErrorRow (row : List Value) : Except Exc ErrorInfo := do
  let v0 ← rowGet row 0
  let v1 ← rowGet row 1
  let v2 ← rowGet row 2
  let v3 ← rowGet row 3
  let cnt ← pyInt (pyOrZero v3)
  pure { function_name := pyOr v0 (.vstr ("Unknown"))
         exception_type := pyOr v1 (.vstr ("Unknown"))
         exception_message := pyOr v2 (.vstr ("Unknown"))
         count := cnt }

/-- Conversion of one performance row (`parse_function_performance_response`
loop body, lines 104-115). -/
def parsePerformanceRow (row : List Value) : Except Exc FunctionPerformanceRecord := do
  let v0 ← rowGet row 0
  let v1 ← rowGet row 1
  let cnt ← pyInt (pyOrZero v1)
  let v2 ← rowGet row 2
  let avg ← pyFloat (pyOrZero v2)
  let v3 ← rowGet row 3
  let mn ← pyFloat (pyOrZero v3)
  let v4 ← rowGet row 4
  let mx ← pyFloat (pyOrZero v4)
  let v5 ← rowGet row 5
  let p95 ← pyFloat (pyOrZero v5)
  let v6 ← rowGet row 6
  let sr ← pyFloat (pyOrZero v6)
  pure { function_name := pyOr v0 (.vstr ("Unknown"))
         invocation_count := cnt
         avg_duration_ms := avg
         min_duration_ms := mn
         max_duration_ms := mx
         p95_duration_ms := p95
         success_rate := sr }

/-- Conversion of one timeline row (`parse_timeline_response` loop body,
lines 126-133). -/
def parseTimelineRow (now : Value) (row : List Value) : Except Exc TimelinePoint := do
  let t0 ← rowGet row 0
  let v1 ← rowGet row 1
  let req ← pyInt (pyOrZero v1)
  let v2 ← rowGet row 2
  let err ← pyInt (pyOrZero v2)
  let v3 ← rowGet row 3
  let tr ← pyInt (pyOrZero v3)
  pure { timestamp := pyOr t0 now
         requests := req
         errors := err
         traces := tr }

/-- Shared row-loop shape of every `parse_*` method: convert each row in
order, keep successes, and count one warning diagnostic per failed row
(the `except ... continue` arm of the loop). Returns (records, number of
diagnostics). -/
def parseRows {α : Type} (p : List Value → Except Exc α) :
    List (List Value) → List α × Nat
| [] => ([], 0)
| r :: rs =>
  let rest := parseRows p rs
  match p r with
  | .ok a => (a :: rest.1, rest.2)
  | .error _ => (rest.1, rest.2 + 1)

/-- Embedding of `parse_log_response` (lines 15-51), paired with its
diagnostic count. -/
def parse_log_response (jd : String → Option Value) (now : Value)
    (rows : List (List Value)) : List FunctionAppLogEntry × Nat :=
  parseRows (parseLogRow jd now) rows

/-- Embedding of `parse_metrics_response` (lines 53-71), paired with its
diagnostic count. -/
def parse_metrics_response (now : Value) (rows : List (List Value)) :
    List FunctionAppMetrics × Nat :=
  parseRows (parseMetricsRow now) rows

/-- Row loop of `parse_error_analysis_response` (lines 75-90): accumulates
the group list, the running `total_errors` sum and the diagnostic count. -/
def errLoop : List (List Value) → List ErrorInfo × Int × Nat
| [] => ([], 0, 0)
| r :: rs =>
  let rest := errLoop rs
  match parseErrorRow r with
  | .ok e => (e :: rest.1, e.count + rest.2.1, rest.2.2)
  | .error _ => (rest.1, rest.2.1, rest.2.2 + 1)

/-- Embedding of `parse_error_analysis_response` (lines 73-98), paired with
its diagnostic count. -/
def parse_error_analysis_response (rows : List (List Value))
    (function_app_name : String) (hours_back : Int) : ErrorAnalysis × Nat :=
  let res := errLoop rows
  ({ errors := res.1
     total_errors := res.2.1
     unique_error_types := res.1.length
     time_range_hours := hours_back
     function_app_name := function_app_name }, res.2.2)

/-- Embedding of `parse_function_performance_response` (lines 100-120),
paired with its diagnostic count. -/
def parse_function_performance_response (rows : List (List Value)) :
    List FunctionPerformanceRecord × Nat :=
  parseRows parsePerformanceRow rows

/-- Embedding of `parse_timeline_response` (lines 122-139), paired with its
diagnostic count. -/
def parse_timeline_response (now : Value) (rows : List (List Value)) :
    List TimelinePoint × Nat :=
  parseRows (parseTimelineRow now) rows

/- ## Query builder (`src/core/query_builder.py`) -/

/-- Severity rendering of `build_logs_query` lines 25-31:
`severity_map.get(log_level, log_level)` — the four known names map to their
digits, any other string passes through as a raw literal. -/
def logSeverityDigit (lvl : String) : String :=
  if lvl = "Error" then "3"
  else if lvl = "Warning" then "2"
  else if lvl = "Information" then "1"
  else if lvl = "Verbose" then "0"
  else lvl

/-- Truthiness of an `Optional[str]` parameter (`if log_level:`): `None` and
the empty string are falsy. -/
def optTruthy : Option String → Bool
| none => false
| some s => s != ""

/-- The `query_parts` list assembled by `build_logs_query` (lines 17-50),
before the final newline join. -/
def build_logs_query_parts (application_name : String) (hours_back : Int)
    (log_level : Option String) (function_name : Option String)
    (limit : Int) (exclude_noise : Bool) : List String :=
  let base := [
    "traces",
    "| where timestamp > ago(" ++ toString hours_back ++ "h)",
    "| where cloud_RoleName contains \x27" ++ application_name ++ "\x27"]
  let levelPart : List String :=
    match log_level with
    | some lvl =>
      if lvl != "" then ["| where severityLevel == " ++ logSeverityDigit lvl] else []
    | none => []
  let fnPart : List String :=
    match function_name with
    | some fn =>
      if fn != "" then
        ["| where operation_Name contains \x27" ++ fn ++
         "\x27 or message contains \x27" ++ fn ++ "\x27"]
      else []
    | none => []
  let noisePart : List String :=
    if exclude_noise then
      ["| where message != \"WorkerStatusRequest completed\"",
       "| where message !contains \"Host lock lease acquired\"",
       "| where message !contains \"Host lock lease renewed\""]
    else []
  base ++ levelPart ++ fnPart ++ noisePart ++
    ["| limit " ++ toString limit,
     "| project timestamp, severityLevel, message, operation_Name, operation_Id, customDimensions",
     "| order by timestamp desc"]

/-- Python `"\n".join(parts)`. -/
def joinLines : List String → String
| [] => ""
| [p] => p
| p :: ps => p ++ "\n" ++ joinLines ps

/-- Embedding of `KQLQueryBuilder.build_logs_query` (lines 8-52). -/
def build_logs_query (application_name : String) (hours_back : Int)
    (log_level : Option String) (function_name : Option String)
    (limit : Int) (exclude_noise : Bool) : String :=
  joinLines (build_logs_query_parts application_name hours_back log_level
    function_name limit exclude_noise)

/-- Boolean test that `pat` occurs contiguously at the head of a character list. -/
def hasPre : List Char → List Char → Bool
| [], _ => true
| _ :: _, [] => false
| a :: as, b :: bs => a == b && hasPre as bs

/-- Boolean test that `pat` occurs contiguously somewhere in a character list. -/
def hasSub (pat : List Char) : List Char → Bool
| [] => pat.isEmpty
| b :: bs => hasPre pat (b :: bs) || hasSub pat bs

/-- Substring test: `pat` occurs contiguously inside `s`. -/
def strContains (s pat : String) : Bool := hasSub pat.data s.data

/- ## Configuration (`src/models/config.py`) and its facade wrapper -/

/-- Per-environment configuration triple (`EnvironmentConfig` of `config.py`). -/
structure EnvironmentConfig where
  subscription_id : String
  resource_group : String
  app_insights_name : String
deriving DecidableEq

/-- Model of `str.upper()` as used on environment names (ASCII identifiers):
character-wise upper-casing. -/
def strUpper (s : String) : String := String.mk (s.data.map Char.toUpper)

/-- Truthiness of an `os.getenv` result: unset (`None`) or empty is falsy. -/
def strvTruthy : Option String → Bool
| none => false
| some s => s != ""

/-- Missing-field list of `Config.get_environment_config` lines 37-41: the
keys of the falsy entries, in dict-literal order. -/
def missingFields (s r a : Option String) : List String :=
  (if strvTruthy s then [] else ["subscription_id"]) ++
  (if strvTruthy r then [] else ["resource_group"]) ++
  (if strvTruthy a then [] else ["app_insights_name"])

/-- Embedding of `Config.get_environment_config` (lines 28-48), parameterised
by the process environment `env` (a model of `os.getenv`). A failure is a
`ValueError` (line 42) carrying the missing-field list of its message. -/
def get_environment_config (env : String → Option String) (environment : String) :
    Except (Exc × List String) EnvironmentConfig :=
  let env_upper := strUpper environment
  let subscription_id := env (env_upper ++ "_SUBSCRIPTION_ID")
  let resource_group := env (env_upper ++ "_RESOURCE_GROUP")
  let app_insights_name := env (env_upper ++ "_APP_INSIGHTS_NAME")
  if strvTruthy subscription_id && strvTruthy resource_group &&
      strvTruthy app_insights_name then
    .ok { subscription_id := subscription_id.getD ("")
          resource_group := resource_group.getD ("")
          app_insights_name := app_insights_name.getD ("") }
  else
    .error (.valueError,
      missingFields subscription_id resource_group app_insights_name)

/-- Configuration step of `AzureObservabilitySDK.__init__`
(`azure_observability_sdk.py` lines 51-56): the `ValueError` raised by
`Config.get_environment_config` is caught and re-raised as
`ConfigurationError` with the same diagnostic content. -/
def sdk_load_config (env : String → Option String) (environment : String) :
    Except (Exc × List String) EnvironmentConfig :=
  match get_environment_config env environment with
  | .ok c => .ok c
  | .error (e, m) =>
    if e = .valueError then .error (.configurationError, m) else .error (e, m)

/-- Test that a configuration result is a raised `ConfigurationError`. -/
def raisesConfigurationError (r : Except (Exc × List String) EnvironmentConfig) : Bool :=
  match r with
  | .error (.configurationError, _) => true
  | _ => false

/- ## Client manager (`src/core/azure_client.py`) and domain services -/

/-- Subclass test for azure-core `HttpResponseError`: both
`ResourceNotFoundError` and `ClientAuthenticationError` derive from it. -/
def isHttpResponseError : Exc → Bool
| .httpResponseError => true
| .resourceNotFoundError => true
| .clientAuthenticationError => true
| _ => false

namespace AzureClientManager

/-- Embedding of the `logs_client` property (lines 37-46): construction of
`LogsQueryClient` is an external call whose outcome is the parameter `ctor`;
a raised `ClientAuthenticationError` is re-raised as the repository's
`AuthenticationError`, any other outcome passes through. -/
def logs_client (ctor : Except Exc Unit) : Except Exc Unit :=
  match ctor with
  | .ok u => .ok u
  | .error e =>
    if e = .clientAuthenticationError then .error .authenticationError else .error e

/-- Embedding of the `web_client` property (lines 23-35), analogous to
`logs_client`. -/
def web_client (ctor : Except Exc Unit) : Except Exc Unit :=
  match ctor with
  | .ok u => .ok u
  | .error e =>
    if e = .clientAuthenticationError then .error .authenticationError else .error e

end AzureClientManager

/-- Outcome of the external `logs_client.query_resource` call: a success
status with the rows of the first table, a success status with no tables, a
non-success status, or a raised exception. -/
inductive QueryOutcome
| success (rows : List (List Value))
| successNoTables
| nonSuccess
| raises (e : Exc)

/-- Exception translation shared by `LogsService.get_logs`,
`MetricsService.get_metrics` and `MetricsService.analyze_errors`: the
`except HttpResponseError` arm raises `QueryError` and the blanket
`except Exception` arm also raises `QueryError`. -/
def logsQueryHandle (e : Exc) : Exc :=
  if isHttpResponseError e then .queryError else .queryError

/-- Exception translation of the operations with only a blanket
`except Exception` arm (`search_logs`, `get_function_performance`,
`get_timeline_analysis`): everything becomes `QueryError`. -/
def blanketHandle (_ : Exc) : Exc := .queryError

namespace LogsService

/-- Embedding of `LogsService.get_logs` (lines 53-112): the lazy client
access and the query execution happen inside one `try`; a success status
with tables parses the first table's rows, a non-success status (or a
success without tables) returns the empty list, and any exception raised in
the block — including the client property's `AuthenticationError` — is
translated by the two `except` arms. -/
def get_logs (ctor : Except Exc Unit) (qr : QueryOutcome)
    (jd : String → Option Value) (now : Value) :
    Except Exc (List FunctionAppLogEntry) :=
  match AzureClientManager.logs_client ctor with
  | .error e => .error (logsQueryHandle e)
  | .ok _ =>
    match qr with
    | .success rows => .ok (parse_log_response jd now rows).1
    | .successNoTables => .ok []
    | .nonSuccess => .ok []
    | .raises e => .error (logsQueryHandle e)

/-- Embedding of `LogsService.search_logs` (lines 138-188); only a blanket
`except Exception` arm. -/
def search_logs (ctor : Except Exc Unit) (qr : QueryOutcome)
    (jd : String → Option Value) (now : Value) :
    Except Exc (List FunctionAppLogEntry) :=
  match AzureClientManager.logs_client ctor with
  | .error e => .error (blanketHandle e)
  | .ok _ =>
    match qr with
    | .success rows => .ok (parse_log_response jd now rows).1
    | .successNoTables => .ok []
    | .nonSuccess => .ok []
    | .raises e => .error (blanketHandle e)

/-- The KQL query string that `LogsService.get_logs` builds (lines 78-84):
`build_logs_query` with `exclude_noise` left at its default `True`. -/
def get_logs_query (application_name : String) (hours_back : Int)
    (log_level : Option String) (function_name : Option String)
    (limit : Int) : String :=
  build_logs_query application_name hours_back log_level function_name limit true

/-- The query built by a `get_logs` call that passes only the application
name, using the declared parameter defaults of `get_logs` (lines 53-59):
`hours_back=1`, `log_level="Information"`, `function_name=None`, `limit=100`. -/
def get_logs_query_default (application_name : String) : String :=
  get_logs_query application_name 1 (some ("Information")) none 100

end LogsService

namespace MetricsService

/-- Embedding of `MetricsService.get_metrics` (lines 53-105). -/
def get_metrics (ctor : Except Exc Unit) (qr : QueryOutcome) (now : Value) :
    Except Exc (List FunctionAppMetrics) :=
  match AzureClientManager.logs_client ctor with
  | .error e => .error (logsQueryHandle e)
  | .ok _ =>
    match qr with
    | .success rows => .ok (parse_metrics_response now rows).1
    | .successNoTables => .ok []
    | .nonSuccess => .ok []
    | .raises e => .error (logsQueryHandle e)

/-- Embedding of `MetricsService.analyze_errors` (lines 107-167): a
non-success status returns the designated empty `ErrorAnalysis`
(lines 153-160). -/
def analyze_errors (ctor : Except Exc Unit) (qr : QueryOutcome)
    (function_app_name : String) (hours_back : Int) : Except Exc ErrorAnalysis :=
  match AzureClientManager.logs_client ctor with
  | .error e => .error (logsQueryHandle e)
  | .ok _ =>
    match qr with
    | .success rows =>
      .ok (parse_error_analysis_response rows function_app_name hours_back).1
    | .successNoTables =>
      .ok { errors := [], total_errors := 0, unique_error_types := 0,
            time_range_hours := hours_back, function_app_name := function_app_name }
    | .nonSuccess =>
      .ok { errors := [], total_errors := 0, unique_error_types := 0,
            time_range_hours := hours_back, function_app_name := function_app_name }
    | .raises e => .error (logsQueryHandle e)

/-- Embedding of `MetricsService.get_function_performance` (lines 169-215). -/
def get_function_performance (ctor : Except Exc Unit) (qr : QueryOutcome) :
    Except Exc (List FunctionPerformanceRecord) :=
  match AzureClientManager.logs_client ctor with
  | .error e => .error (blanketHandle e)
  | .ok _ =>
    match qr with
    | .success rows => .ok (parse_function_performance_response rows).1
    | .successNoTables => .ok []
    | .nonSuccess => .ok []
    | .raises e => .error (blanketHandle e)

/-- Embedding of `MetricsService.get_timeline_analysis` (lines 217-263). -/
def get_timeline_analysis (ctor : Except Exc Unit) (qr : QueryOutcome)
    (now : Value) : Except Exc (List TimelinePoint) :=
  match AzureClientManager.logs_client ctor with
  | .error e => .error (blanketHandle e)
  | .ok _ =>
    match qr with
    | .success rows => .ok (parse_timeline_response now rows).1
    | .successNoTables => .ok []
    | .nonSuccess => .ok []
    | .raises e => .error (blanketHandle e)

end MetricsService

/-- One web app returned by the management-plane list call: its name and its
optional `kind` string. -/
structure SiteInfo where
  name : String
  kind : Option String
deriving DecidableEq

namespace FunctionAppService

/-- Exception translation of `list_function_apps` and `list_functions`
(lines 66-74, 102-110): `ResourceNotFoundError`, `HttpResponseError` and the
blanket arm all raise `QueryError`. -/
def faHandle (e : Exc) : Exc :=
  if e = .resourceNotFoundError then .queryError
  else if isHttpResponseError e then .queryError
  else .queryError

/-- Exception translation of `get_function_app_info` (lines 156-161):
`ResourceNotFoundError` and the blanket arm both raise `QueryError`. -/
def faInfoHandle (e : Exc) : Exc :=
  if e = .resourceNotFoundError then .queryError else .queryError

/-- Embedding of `FunctionAppService.list_function_apps` (lines 45-74): the
management call's outcome is the parameter `apps`; app names whose truthy
`kind` contains the text `functionapp` (lower-cased) are kept. -/
def list_function_apps (ctor : Except Exc Unit) (apps : Except Exc (List SiteInfo)) :
    Except Exc (List String) :=
  match AzureClientManager.web_client ctor with
  | .error e => .error (faHandle e)
  | .ok _ =>
    match apps with
    | .error e => .error (faHandle e)
    | .ok l =>
      .ok ((l.filter (fun s =>
        match s.kind with
        | some k => k != "" && strContains k.toLower ("functionapp")
        | none => false)).map (fun s => s.name))

/-- Embedding of `FunctionAppService.list_functions` (lines 76-110). -/
def list_functions (ctor : Except Exc Unit) (funcs : Except Exc (List String)) :
    Except Exc (List String) :=
  match AzureClientManager.web_client ctor with
  | .error e => .error (faHandle e)
  | .ok _ =>
    match funcs with
    | .error e => .error (faHandle e)
    | .ok l => .ok l

/-- Embedding of `FunctionAppService.get_function_app_info` (lines 112-161):
the app-detail payload is abstract (`α`); a failure of the inner
app-settings call is caught (lines 144-152) and replaced by an empty
settings map, yielding a partial result. -/
def get_function_app_info {α : Type} (ctor : Except Exc Unit)
    (appRes : Except Exc α) (settingsRes : Except Exc (List (String × String))) :
    Except Exc (α × List (String × String)) :=
  match AzureClientManager.web_client ctor with
  | .error e => .error (faInfoHandle e)
  | .ok _ =>
    match appRes with
    | .error e => .error (faInfoHandle e)
    | .ok a =>
      match settingsRes with
      | .ok s => .ok (a, s)
      | .error _ => .ok (a, [])

/-- Embedding of `FunctionAppService.validate_function_app_exists`
(lines 163-178): membership in the full list, with a blanket
`except Exception` arm returning `False`. -/
def validate_function_app_exists (ctor : Except Exc Unit)
    (apps : Except Exc (List SiteInfo)) (function_app_name : String) :
    Except Exc Bool :=
  match list_function_apps ctor apps with
  | .ok l => .ok (l.contains function_app_name)
  | .error _ => .ok false

end FunctionAppService

/- ## Concrete sample data used by witness theorems -/

/-- Trivial model of `json.loads` that rejects every string; used only to
instantiate parser theorems at concrete inputs. -/
def jdNone : String → Option Value := fun _ => none

/-- A well-formed traces row: timestamp, severity 3, message, two nulls. -/
def goodLogRow : List Value := [.vtime 1, .vint 3, .vstr ("boom"), .vnull, .vnull]

/-- A malformed traces row: its severity cell is a non-numeric string, so
`int(row[1])` raises `ValueError`. -/
def badLogRow : List Value := [.vtime 1, .vstr ("oops"), .vstr ("boom"), .vnull, .vnull]

/-- A metrics row whose total-invocations cell is a truthy non-numeric
string. -/
def badMetricsRow : List Value :=
  [.vtime 1, .vstr ("abc"), .vint 1, .vint 0, .vint 0, .vint 1]

/-- Process environment for the `qa` environment with the resource-group
variable unset. -/
def envMissingRG : String → Option String := fun k =>
  if k = "QA_SUBSCRIPTION_ID" then some ("sub-1")
  else if k = "QA_APP_INSIGHTS_NAME" then some ("ai-1")
  else none

/-- Fully-populated process environment for the `dev` environment. -/
def envFull : String → Option String := fun k =>
  if k = "DEV_SUBSCRIPTION_ID" then some ("s1")
  else if k = "DEV_RESOURCE_GROUP" then some ("r1")
  else if k = "DEV_APP_INSIGHTS_NAME" then some ("a1")
  else none

end AzureLoggingTool

deriving instance DecidableEq for Except

namespace AzureLoggingTool

/- ## Helper lemmas about the row loops -/

theorem errOk_bind {α β : Type} {a : Except Exc α} {f : α → Except Exc β}
    (ha : errOk a = true) (hf : ∀ x, errOk (f x) = true) :
    errOk (a >>= f) = true := by
  cases a with
  | ok x => simpa [Bind.bind, Except.bind] using hf x
  | error e => simpa [Bind.bind, Except.bind] using ha

theorem errOk_rowGet (row : List Value) (i : Nat) : errOk (rowGet row i) = true := by
  unfold rowGet
  cases row.get? i <;> simp [errOk, caught]

theorem errOk_pyInt (v : Value) : errOk (pyInt v) = true := by
  cases v with
  | vstr s => cases h : pyIntOfStr s <;> simp [pyInt, h, errOk, caught]
  | vint n => rfl
  | vfloat q => rfl
  | vnull => rfl
  | vtime t => rfl
  | vdict kvs => rfl

theorem errOk_pyFloat (v : Value) : errOk (pyFloat v) = true := by
  cases v with
  | vstr s => cases h : pyFloatOfStr s <;> simp [pyFloat, h, errOk, caught]
  | vint n => rfl
  | vfloat q => rfl
  | vnull => rfl
  | vtime t => rfl
  | vdict kvs => rfl

theorem errOk_severityLevel (v : Value) : errOk (severityLevel v) = true := by
  cases v with
  | vstr s => cases h : pyIntOfStr s <;> simp [severityLevel, pyInt, h, errOk, caught]
  | vint n => rfl
  | vfloat q => rfl
  | vnull => rfl
  | vtime t => rfl
  | vdict kvs => rfl

theorem errOk_parseLogRow (jd : String → Option Value) (now : Value)
    (row : List Value) : errOk (parseLogRow jd now row) = true := by
  unfold parseLogRow
  refine errOk_bind (errOk_rowGet row 0) (fun t0 => ?_)
  refine errOk_bind (errOk_rowGet row 1) (fun s1 => ?_)
  refine errOk_bind (errOk_severityLevel s1) (fun lvl => ?_)
  refine errOk_bind (errOk_rowGet row 2) (fun m2 => ?_)
  refine errOk_bind (errOk_rowGet row 3) (fun fn => ?_)
  refine errOk_bind (errOk_rowGet row 4) (fun inv => ?_)
  rfl

theorem errOk_parseMetricsRow (now : Value) (row : List Value) :
    errOk (parseMetricsRow now row) = true := by
  unfold parseMetricsRow
  refine errOk_bind (errOk_rowGet row 0) (fun t0 => ?_)
  refine errOk_bind (errOk_rowGet row 1) (fun v1 => ?_)
  refine errOk_bind (errOk_pyInt _) (fun total => ?_)
  refine errOk_bind (errOk_rowGet row 2) (fun v2 => ?_)
  refine errOk_bind (errOk_pyInt _) (fun succ => ?_)
  refine errOk_bind (errOk_rowGet row 3) (fun v3 => ?_)
  refine errOk_bind (errOk_pyInt _) (fun failed => ?_)
  refine errOk_bind (errOk_rowGet row 4) (fun v4 => ?_)
  refine errOk_bind (errOk_pyFloat _) (fun avg => ?_)
  refine errOk_bind (errOk_rowGet row 5) (fun v5 => ?_)
  refine errOk_bind (errOk_pyInt _) (fun uniq => ?_)
  rfl

theorem errOk_parseErrorRow (row : List Value) : errOk (parseErrorRow row) = true := by
  unfold parseErrorRow
  refine errOk_bind (errOk_rowGet row 0) (fun v0 => ?_)
  refine errOk_bind (errOk_rowGet row 1) (fun v1 => ?_)
  refine errOk_bind (errOk_rowGet row 2) (fun v2 => ?_)
  refine errOk_bind (errOk_rowGet row 3) (fun v3 => ?_)
  refine errOk_bind (errOk_pyInt _) (fun cnt => ?_)
  rfl

theorem errOk_parsePerformanceRow (row : List Value) :
    errOk (parsePerformanceRow row) = true := by
  unfold parsePerformanceRow
  refine errOk_bind (errOk_rowGet row 0) (fun v0 => ?_)
  refine errOk_bind (errOk_rowGet row 1) (fun v1 => ?_)
  refine errOk_bind (errOk_pyInt _) (fun cnt => ?_)
  refine errOk_bind (errOk_rowGet row 2) (fun v2 => ?_)
  refine errOk_bind (errOk_pyFloat _) (fun avg => ?_)
  refine errOk_bind (errOk_rowGet row 3) (fun v3 => ?_)
  refine errOk_bind (errOk_pyFloat _) (fun mn => ?_)
  refine errOk_bind (errOk_rowGet row 4) (fun v4 => ?_)
  refine errOk_bind (errOk_pyFloat _) (fun mx => ?_)
  refine errOk_bind (errOk_rowGet row 5) (fun v5 => ?_)
  refine errOk_bind (errOk_pyFloat _) (fun p95 => ?_)
  refine errOk_bind (errOk_rowGet row 6) (fun v6 => ?_)
  refine errOk_bind (errOk_pyFloat _) (fun sr => ?_)
  rfl

theorem errOk_parseTimelineRow (now : Value) (row : List Value) :
    errOk (parseTimelineRow now row) = true := by
  unfold parseTimelineRow
  refine errOk_bind (errOk_rowGet row 0) (fun t0 => ?_)
  refine errOk_bind (errOk_rowGet row 1) (fun v1 => ?_)
  refine errOk_bind (errOk_pyInt _) (fun req => ?_)
  refine errOk_bind (errOk_rowGet row 2) (fun v2 => ?_)
  refine errOk_bind (errOk_pyInt _) (fun err => ?_)
  refine errOk_bind (errOk_rowGet row 3) (fun v3 => ?_)
  refine errOk_bind (errOk_pyInt _) (fun tr => ?_)
  rfl

theorem parseRows_append {α : Type} (p : List Value → Except Exc α)
    (l1 l2 : List (List Value)) :
    parseRows p (l1 ++ l2) =
      ((parseRows p l1).1 ++ (parseRows p l2).1,
       (parseRows p l1).2 + (parseRows p l2).2) := by
  induction l1 with
  | nil => simp [parseRows]
  | cons r rs ih =>
    cases hp : p r with
    | ok a => simp [parseRows, hp, ih]
    | error e =>
      simp [parseRows, hp, ih]
      omega

theorem parseRows_diag_zero {α : Type} (p : List Value → Except Exc α)
    (l : List (List Value)) (h : ∀ r ∈ l, resOk (p r) = true) :
    (parseRows p l).2 = 0 := by
  induction l with
  | nil => rfl
  | cons r rs ih =>
    have hr := h r (by simp)
    cases hp : p r with
    | ok a =>
      simpa [parseRows, hp] using ih (fun x hx => h x (by simp [hx]))
    | error e =>
      rw [hp] at hr
      simp [resOk] at hr

theorem parseRows_skip {α : Type} (p : List Value → Except Exc α)
    (pre post : List (List Value)) (bad : List Value)
    (hok : ∀ r ∈ pre ++ post, resOk (p r) = true)
    (hbad : resOk (p bad) = false) :
    parseRows p (pre ++ bad :: post) = ((parseRows p (pre ++ post)).1, 1) := by
  have hpre : ∀ r ∈ pre, resOk (p r) = true :=
    fun r hr => hok r (List.mem_append_left _ hr)
  have hpost : ∀ r ∈ post, resOk (p r) = true :=
    fun r hr => hok r (List.mem_append_right _ hr)
  have hb : ∃ e, p bad = .error e := by
    cases hp : p bad with
    | ok a => rw [hp] at hbad; simp [resOk] at hbad
    | error e => exact ⟨e, rfl⟩
  obtain ⟨e, he⟩ := hb
  rw [parseRows_append, parseRows_append]
  simp [parseRows, he, parseRows_diag_zero p pre hpre, parseRows_diag_zero p post hpost]

theorem parseRows_filterMap {α : Type} (p : List Value → Except Exc α)
    (l : List (List Value)) :
    (parseRows p l).1 = l.filterMap (fun r => (p r).toOption) := by
  induction l with
  | nil => rfl
  | cons r rs ih =>
    cases hp : p r <;> simp [parseRows, hp, ih, Except.toOption]

theorem errLoop_eq (l : List (List Value)) :
    errLoop l = ((parseRows parseErrorRow l).1,
      (((parseRows parseErrorRow l).1).map (fun e => e.count)).sum,
      (parseRows parseErrorRow l).2) := by
  induction l with
  | nil => rfl
  | cons r rs ih =>
    cases hp : parseErrorRow r <;> simp [errLoop, parseRows, hp, ih]

/- ## Claim theorems -/

/-- C1: for every batch of error-analysis rows, the `ErrorAnalysis` returned
by `parse_error_analysis_response` satisfies `total_errors` = the sum of the
`count` fields of its group records and `unique_error_types` = the length of
the group list; rows failing per-row conversion are excluded from the list
and the sum; the empty batch yields `total_errors = 0` and an empty list. -/
theorem error_analysis_totals_invariant (rows : List (List Value))
    (name : String) (hb : Int) :
    (parse_error_analysis_response rows name hb).1.total_errors =
      (((parse_error_analysis_response rows name hb).1.errors).map
        (fun e => e.count)).sum ∧
    (parse_error_analysis_response rows name hb).1.unique_error_types =
      ((parse_error_analysis_response rows name hb).1.errors).length ∧
    (parse_error_analysis_response rows name hb).1.errors =
      rows.filterMap (fun r => (parseErrorRow r).toOption) ∧
    (rows = [] →
      (parse_error_analysis_response rows name hb).1.total_errors = 0 ∧
      (parse_error_analysis_response rows name hb).1.errors = []) := by
  refine ⟨?_, ?_, ?_, ?_⟩
  · simp [parse_error_analysis_response, errLoop_eq]
  · simp [parse_error_analysis_response, errLoop_eq]
  · simp [parse_error_analysis_response, errLoop_eq, parseRows_filterMap]
  · intro h
    subst h
    exact ⟨rfl, rfl⟩

/-- Witness for C1: the invariant instantiated at the empty batch. -/
theorem error_analysis_totals_invariant_empty :
    (parse_error_analysis_response [] ("app") 24).1.total_errors = 0 ∧
    (parse_error_analysis_response [] ("app") 24).1.errors = [] :=
  (error_analysis_totals_invariant [] ("app") 24).2.2.2 rfl

/-- C2: the severity conversion of `parse_log_response` is total — severity
integers 0,1,2,3 map to Verbose/Information/Warning/Error, any other integer
and a null severity map to Unknown, and the conversion only ever raises
exception kinds that the row loop catches, so nothing escapes the parser. -/
theorem severity_conversion_total (jd : String → Option Value)
    (now t0 m2 fn inv : Value) (n : Int) :
    severity_map 0 = "Verbose" ∧
    severity_map 1 = "Information" ∧
    severity_map 2 = "Warning" ∧
    severity_map 3 = "Error" ∧
    (n ≠ 0 → n ≠ 1 → n ≠ 2 → n ≠ 3 → severity_map n = "Unknown") ∧
    severityLevel (.vint n) = .ok (severity_map n) ∧
    severityLevel .vnull = .ok ("Unknown") ∧
    parseLogRow jd now [t0, .vint n, m2, fn, inv] =
      .ok { timestamp := pyOr t0 now, level := severity_map n,
            message := pyOr m2 (.vstr ("")), function_name := fn,
            invocation_id := inv, exception_type := none,
            exception_message := none, custom_properties := none } ∧
    parseLogRow jd now [t0, .vnull, m2, fn, inv] =
      .ok { timestamp := pyOr t0 now, level := "Unknown",
            message := pyOr m2 (.vstr ("")), function_name := fn,
            invocation_id := inv, exception_type := none,
            exception_message := none, custom_properties := none } ∧
    (∀ v, errOk (severityLevel v) = true) ∧
    (∀ row, errOk (parseLogRow jd now row) = true) := by
  refine ⟨rfl, rfl, rfl, rfl, ?_, rfl, rfl, rfl, rfl,
    errOk_severityLevel, errOk_parseLogRow jd now⟩
  intro h0 h1 h2 h3
  rw [severity_map, if_neg h0, if_neg h1, if_neg h2, if_neg h3]

/-- Witness for C2: the conversion at the unmapped severity integer 7. -/
theorem severity_conversion_total_at_seven : severity_map 7 = "Unknown" :=
  (severity_conversion_total jdNone .vnull .vnull .vnull .vnull .vnull 7).2.2.2.2.1
    (by decide) (by decide) (by decide) (by decide)

/-- C3: for every batch in which exactly one row is malformed and all other
rows are well-formed, each `parse_*` operation returns the parsed records of
all other rows in the original order and counts exactly one diagnostic, and
every per-row failure is of an exception kind the loop catches, so the batch
never raises. -/
theorem response_parser_row_skip_tolerance (jd : String → Option Value)
    (now : Value) (name : String) (hb : Int)
    (pre post : List (List Value)) (bad : List Value) :
    ((∀ r ∈ pre ++ post, resOk (parseLogRow jd now r) = true) →
      resOk (parseLogRow jd now bad) = false →
      parse_log_response jd now (pre ++ bad :: post) =
        ((parse_log_response jd now (pre ++ post)).1, 1)) ∧
    ((∀ r ∈ pre ++ post, resOk (parseMetricsRow now r) = true) →
      resOk (parseMetricsRow now bad) = false →
      parse_metrics_response now (pre ++ bad :: post) =
        ((parse_metrics_response now (pre ++ post)).1, 1)) ∧
    ((∀ r ∈ pre ++ post, resOk (parseErrorRow r) = true) →
      resOk (parseErrorRow bad) = false →
      parse_error_analysis_response (pre ++ bad :: post) name hb =
        ((parse_error_analysis_response (pre ++ post) name hb).1, 1)) ∧
    ((∀ r ∈ pre ++ post, resOk (parsePerformanceRow r) = true) →
      resOk (parsePerformanceRow bad) = false →
      parse_function_performance_response (pre ++ bad :: post) =
        ((parse_function_performance_response (pre ++ post)).1, 1)) ∧
    ((∀ r ∈ pre ++ post, resOk (parseTimelineRow now r) = true) →
      resOk (parseTimelineRow now bad) = false →
      parse_timeline_response now (pre ++ bad :: post) =
        ((parse_timeline_response now (pre ++ post)).1, 1)) ∧
    (∀ row, errOk (parseLogRow jd now row) = true) ∧
    (∀ row, errOk (parseMetricsRow now row) = true) ∧
    (∀ row, errOk (parseErrorRow row) = true) ∧
    (∀ row, errOk (parsePerformanceRow row) = true) ∧
    (∀ row, errOk (parseTimelineRow now row) = true) := by
  refine ⟨fun hok hbad => parseRows_skip _ pre post bad hok hbad,
    fun hok hbad => parseRows_skip _ pre post bad hok hbad,
    fun hok hbad => ?_,
    fun hok hbad => parseRows_skip _ pre post bad hok hbad,
    fun hok hbad => parseRows_skip _ pre post bad hok hbad,
    errOk_parseLogRow jd now, errOk_parseMetricsRow now, errOk_parseErrorRow,
    errOk_parsePerformanceRow, errOk_parseTimelineRow now⟩
  have h := parseRows_skip parseErrorRow pre post bad hok hbad
  simp [parse_error_analysis_response, errLoop_eq, h]

/-- Witness for C3: a three-row batch whose middle row has a non-numeric
severity cell parses to the records of the outer rows with one diagnostic. -/
theorem response_parser_row_skip_tolerance_example :
    parse_log_response jdNone (.vtime 0) [goodLogRow, badLogRow, goodLogRow] =
      ((parse_log_response jdNone (.vtime 0) [goodLogRow, goodLogRow]).1, 1) :=
  (response_parser_row_skip_tolerance jdNone (.vtime 0) ("app") 24
    [goodLogRow] [goodLogRow] badLogRow).1 (by decide) (by decide)

/-- C5 counterexample: a metrics row whose total-invocations cell is the
truthy non-numeric string `abc` is skipped entirely (with one diagnostic)
rather than parsed with that field defaulted to 0, refuting the claim that
any non-numeric value in a numeric column defaults the field to 0. -/
theorem parse_metrics_nonnumeric_skips_row :
    parse_metrics_response (.vtime 0) [badMetricsRow] = ([], 1) ∧
    (parse_metrics_response (.vtime 0) [badMetricsRow]).1 ≠
      [{ timestamp := .vtime 1, total_invocations := 0,
         successful_invocations := 1, failed_invocations := 0,
         avg_duration_ms := 0, unique_functions := 1 }] := by
  exact ⟨by decide, by decide⟩

/-- C5 (amended): metrics column order is (timestamp, total, successful,
failed, avg-duration, unique-functions); a missing (falsy — null, zero or
empty) value in a numeric column defaults that field to 0; a truthy
non-numeric value instead makes the row fail per-row conversion, so the row
is skipped with one diagnostic. -/
theorem parse_metrics_defaulting (now c0 c1 c2 c3 c4 c5 : Value)
    (n1 n2 n3 n5 : Int) (q4 : Rat)
    (h1 : pyInt (pyOrZero c1) = .ok n1)
    (h2 : pyInt (pyOrZero c2) = .ok n2)
    (h3 : pyInt (pyOrZero c3) = .ok n3)
    (h4 : pyFloat (pyOrZero c4) = .ok q4)
    (h5 : pyInt (pyOrZero c5) = .ok n5) :
    parseMetricsRow now [c0, c1, c2, c3, c4, c5] =
      .ok { timestamp := pyOr c0 now, total_invocations := n1,
            successful_invocations := n2, failed_invocations := n3,
            avg_duration_ms := q4, unique_functions := n5 } ∧
    (pyTruthy c1 = false → n1 = 0) ∧
    (pyTruthy c2 = false → n2 = 0) ∧
    (pyTruthy c3 = false → n3 = 0) ∧
    (pyTruthy c4 = false → q4 = 0) ∧
    (pyTruthy c5 = false → n5 = 0) ∧
    (∀ bad, pyTruthy bad = true → resOk (pyInt bad) = false →
      parse_metrics_response now [[c0, bad, c2, c3, c4, c5]] = ([], 1)) := by
  refine ⟨?_, ?_, ?_, ?_, ?_, ?_, ?_⟩
  · simp [parseMetricsRow, rowGet, h1, h2, h3, h4, h5, Bind.bind, Except.bind,
      Pure.pure, Except.pure]
  · intro hf
    rw [pyOrZero, pyOr, hf] at h1
    simpa [pyInt] using h1.symm
  · intro hf
    rw [pyOrZero, pyOr, hf] at h2
    simpa [pyInt] using h2.symm
  · intro hf
    rw [pyOrZero, pyOr, hf] at h3
    simpa [pyInt] using h3.symm
  · intro hf
    rw [pyOrZero, pyOr, hf] at h4
    simpa [pyFloat] using h4.symm
  · intro hf
    rw [pyOrZero, pyOr, hf] at h5
    simpa [pyInt] using h5.symm
  · intro bad ht hr
    have hb : ∃ e, pyInt bad = .error e := by
      cases hp : pyInt bad with
      | ok a => rw [hp] at hr; simp [resOk] at hr
      | error e => exact ⟨e, rfl⟩
    obtain ⟨e, he⟩ := hb
    simp [parse_metrics_response, parseRows, parseMetricsRow, rowGet,
      pyOrZero, pyOr, ht, he, Bind.bind, Except.bind, Pure.pure, Except.pure]

/-- Witness for C5's amended theorem: a row with null/empty numeric cells
parses with those fields defaulted to 0. -/
theorem parse_metrics_defaulting_example :
    parseMetricsRow (.vtime 0) [.vnull, .vnull, .vint 2, .vnull, .vstr (""), .vint 4] =
      .ok { timestamp := .vtime 0, total_invocations := 0,
            successful_invocations := 2, failed_invocations := 0,
            avg_duration_ms := 0, unique_functions := 4 } :=
  (parse_metrics_defaulting (.vtime 0) .vnull .vnull (.vint 2) .vnull
    (.vstr ("")) (.vint 4) 0 2 0 4 0 (by decide) (by decide) (by decide)
    (by decide) (by decide)).1

/- ## Helper lemmas about rendered query strings -/

theorem hasPre_refl_append (pat l : List Char) : hasPre pat (pat ++ l) = true := by
  induction pat with
  | nil => rfl
  | cons a as ih => simp [hasPre, ih]

theorem hasSub_of_hasPre (pat l : List Char) (h : hasPre pat l = true) :
    hasSub pat l = true := by
  cases l with
  | nil =>
    cases pat with
    | nil => rfl
    | cons a as => simp [hasPre] at h
  | cons b bs => simp [hasSub, h]

theorem hasSub_append_left (pat x l : List Char) (h : hasSub pat l = true) :
    hasSub pat (x ++ l) = true := by
  induction x with
  | nil => simpa using h
  | cons c cs ih => simp [hasSub, ih]

theorem strContains_of_mem_joinLines (parts : List String) (p : String)
    (h : p ∈ parts) : strContains (joinLines parts) p = true := by
  induction parts with
  | nil => simp at h
  | cons q qs ih =>
    cases qs with
    | nil =>
      have hq : p = q := by simpa using h
      subst hq
      have h2 : hasPre p.data p.data = true := by
        have h3 := hasPre_refl_append p.data []
        simpa using h3
      exact hasSub_of_hasPre _ _ h2
    | cons q2 qs2 =>
      rcases List.mem_cons.mp h with h1 | h2
      · subst h1
        show hasSub p.data (p ++ "\n" ++ joinLines (q2 :: qs2)).data = true
        rw [String.append_assoc, String.data_append]
        exact hasSub_of_hasPre _ _ (hasPre_refl_append p.data _)
      · have hih := ih h2
        show hasSub p.data (q ++ "\n" ++ joinLines (q2 :: qs2)).data = true
        rw [String.append_assoc, String.data_append]
        refine hasSub_append_left _ _ _ ?_
        rw [String.data_append]
        exact hasSub_append_left _ _ _ hih

theorem mem_build_parts_level (app : String) (hb limit : Int) (fn : Option String)
    (noise : Bool) (lvl : String) (h : lvl ≠ "") :
    ("| where severityLevel == " ++ logSeverityDigit lvl) ∈
      build_logs_query_parts app hb (some lvl) fn limit noise := by
  have h2 : (lvl != "") = true := by simpa using h
  simp [build_logs_query_parts, h2]

theorem str_append_ne (C D u v : String) (i : Nat) (hiC : i < C.data.length)
    (hiD : i < D.data.length) (h : C.data.get? i ≠ D.data.get? i) :
    C ++ u ≠ D ++ v := by
  intro he
  apply h
  have hd : C.data ++ u.data = D.data ++ v.data := by
    rw [← String.data_append, ← String.data_append, he]
  calc C.data.get? i = (C.data ++ u.data).get? i := (List.get?_append hiC).symm
    _ = (D.data ++ v.data).get? i := by rw [hd]
    _ = D.data.get? i := List.get?_append hiD

theorem str_append_ne_const (C D u : String) (i : Nat) (hiC : i < C.data.length)
    (hiD : i < D.data.length) (h : C.data.get? i ≠ D.data.get? i) :
    C ++ u ≠ D := by
  intro he
  refine str_append_ne C D u ("") i hiC hiD h ?_
  rw [String.append_empty]
  exact he

/-- The rendered logs query with `log_level=None` never carries a severity
filter clause among its parts, whatever the other arguments are. -/
theorem no_severity_clause_without_level (app : String) (hb limit : Int)
    (fn : Option String) (x : String) :
    ("| where severityLevel == " ++ x) ∉
      build_logs_query_parts app hb none fn limit true := by
  intro hx
  rcases fn with _ | f
  · simp only [build_logs_query_parts, eq_self_iff_true, if_true, if_false,
      Bool.false_eq_true, List.append_nil, List.nil_append, List.cons_append,
      List.mem_append, List.mem_cons, List.not_mem_nil, or_false, false_or] at hx
    rcases hx with h | h | h | h | h | h | h | h | h
    · exact str_append_ne_const _ _ _ 0 (by decide) (by decide) (by decide) h
    · rw [String.append_assoc] at h
      exact str_append_ne _ _ _ _ 8 (by decide) (by decide) (by decide) h
    · rw [String.append_assoc] at h
      exact str_append_ne _ _ _ _ 8 (by decide) (by decide) (by decide) h
    · exact str_append_ne_const _ _ _ 8 (by decide) (by decide) (by decide) h
    · exact str_append_ne_const _ _ _ 8 (by decide) (by decide) (by decide) h
    · exact str_append_ne_const _ _ _ 8 (by decide) (by decide) (by decide) h
    · exact str_append_ne _ _ _ _ 2 (by decide) (by decide) (by decide) h
    · exact str_append_ne_const _ _ _ 2 (by decide) (by decide) (by decide) h
    · exact str_append_ne_const _ _ _ 2 (by decide) (by decide) (by decide) h
  · cases hf : f != ""
    · simp only [build_logs_query_parts, hf, eq_self_iff_true, if_true, if_false,
        Bool.false_eq_true, List.append_nil, List.nil_append, List.cons_append,
        List.mem_append, List.mem_cons, List.not_mem_nil, or_false, false_or] at hx
      rcases hx with h | h | h | h | h | h | h | h | h
      · exact str_append_ne_const _ _ _ 0 (by decide) (by decide) (by decide) h
      · rw [String.append_assoc] at h
        exact str_append_ne _ _ _ _ 8 (by decide) (by decide) (by decide) h
      · rw [String.append_assoc] at h
        exact str_append_ne _ _ _ _ 8 (by decide) (by decide) (by decide) h
      · exact str_append_ne_const _ _ _ 8 (by decide) (by decide) (by decide) h
      · exact str_append_ne_const _ _ _ 8 (by decide) (by decide) (by decide) h
      · exact str_append_ne_const _ _ _ 8 (by decide) (by decide) (by decide) h
      · exact str_append_ne _ _ _ _ 2 (by decide) (by decide) (by decide) h
      · exact str_append_ne_const _ _ _ 2 (by decide) (by decide) (by decide) h
      · exact str_append_ne_const _ _ _ 2 (by decide) (by decide) (by decide) h
    · simp only [build_logs_query_parts, hf, eq_self_iff_true, if_true, if_false,
        Bool.false_eq_true, List.append_nil, List.nil_append, List.cons_append,
        List.mem_append, List.mem_cons, List.not_mem_nil, or_false, false_or] at hx
      rcases hx with h | h | h | h | h | h | h | h | h | h
      · exact str_append_ne_const _ _ _ 0 (by decide) (by decide) (by decide) h
      · rw [String.append_assoc] at h
        exact str_append_ne _ _ _ _ 8 (by decide) (by decide) (by decide) h
      · rw [String.append_assoc] at h
        exact str_append_ne _ _ _ _ 8 (by decide) (by decide) (by decide) h
      · simp only [String.append_assoc] at h
        exact str_append_ne _ _ _ _ 8 (by decide) (by decide) (by decide) h
      · exact str_append_ne_const _ _ _ 8 (by decide) (by decide) (by decide) h
      · exact str_append_ne_const _ _ _ 8 (by decide) (by decide) (by decide) h
      · exact str_append_ne_const _ _ _ 8 (by decide) (by decide) (by decide) h
      · exact str_append_ne _ _ _ _ 2 (by decide) (by decide) (by decide) h
      · exact str_append_ne_const _ _ _ 2 (by decide) (by decide) (by decide) h
      · exact str_append_ne_const _ _ _ 2 (by decide) (by decide) (by decide) h

/-- C4: for every `build_logs_query` call with a level given, the rendered
query carries a severity clause using the mapped digit for the four known
names (Error→3, Warning→2, Information→1, Verbose→0), and any other level
string passes through as a raw literal; in particular the query for subject
`foo`, 3 hours back and level `Error` contains `severityLevel == 3`, a
role-name containment filter on `foo`, and a window clause `ago(3h)`. -/
theorem build_logs_query_severity_mapping (app : String) (hb limit : Int)
    (fn : Option String) (noise : Bool) (lvl : String) (h : lvl ≠ "") :
    ("| where severityLevel == " ++ logSeverityDigit lvl) ∈
      build_logs_query_parts app hb (some lvl) fn limit noise ∧
    strContains (build_logs_query app hb (some lvl) fn limit noise)
      ("| where severityLevel == " ++ logSeverityDigit lvl) = true ∧
    logSeverityDigit ("Error") = "3" ∧
    logSeverityDigit ("Warning") = "2" ∧
    logSeverityDigit ("Information") = "1" ∧
    logSeverityDigit ("Verbose") = "0" ∧
    (lvl ≠ "Error" → lvl ≠ "Warning" → lvl ≠ "Information" → lvl ≠ "Verbose" →
      logSeverityDigit lvl = lvl) ∧
    strContains (build_logs_query ("foo") 3 (some ("Error")) none 100 true)
      ("severityLevel == 3") = true ∧
    strContains (build_logs_query ("foo") 3 (some ("Error")) none 100 true)
      ("cloud_RoleName contains \x27foo\x27") = true ∧
    strContains (build_logs_query ("foo") 3 (some ("Error")) none 100 true)
      ("ago(3h)") = true := by
  have hm := mem_build_parts_level app hb limit fn noise lvl h
  refine ⟨hm, strContains_of_mem_joinLines _ _ hm, rfl, rfl, rfl, rfl, ?_,
    by decide, by decide, by decide⟩
  intro h1 h2 h3 h4
  rw [logSeverityDigit, if_neg h1, if_neg h2, if_neg h3, if_neg h4]

/-- Witness for C4: an unrecognized level string passes through as a raw
literal into the severity clause. -/
theorem build_logs_query_severity_mapping_example :
    ("| where severityLevel == Debug") ∈
      build_logs_query_parts ("app") 1 (some ("Debug")) none 50 false :=
  (build_logs_query_severity_mapping ("app") 1 50 none false ("Debug")
    (by decide)).1

/-- C10: a `LogsService.get_logs` call that leaves `log_level` at its
declared default uses `"Information"`, so the query it renders carries the
clause `severityLevel == 1`; only an explicit `log_level=None` renders a
query with no severity filter clause at all. -/
theorem get_logs_default_level (app : String) (hb limit : Int)
    (fn : Option String) :
    LogsService.get_logs_query_default app =
      build_logs_query app 1 (some ("Information")) none 100 true ∧
    ("| where severityLevel == 1") ∈
      build_logs_query_parts app hb (some ("Information")) fn limit true ∧
    strContains (LogsService.get_logs_query_default app)
      ("| where severityLevel == 1") = true ∧
    (∀ x : String, ("| where severityLevel == " ++ x) ∉
      build_logs_query_parts app hb none fn limit true) := by
  refine ⟨rfl, ?_, ?_, fun x => no_severity_clause_without_level app hb limit fn x⟩
  · exact mem_build_parts_level app hb limit fn true ("Information") (by decide)
  · exact strContains_of_mem_joinLines _ _
      (mem_build_parts_level app 1 100 none true ("Information") (by decide))

/-- Witness for C10: with `log_level=None` the severity filter for digit 1 is
absent from the concrete `foo` query parts. -/
theorem get_logs_default_level_example :
    ("| where severityLevel == 1") ∉
      build_logs_query_parts ("foo") 3 none none 100 true :=
  (get_logs_default_level ("foo") 3 100 none).2.2.2 ("1")

/- ## Helper lemmas about the service exception handlers -/

theorem logsQueryHandle_eq (e : Exc) : logsQueryHandle e = .queryError := by
  unfold logsQueryHandle
  split <;> rfl

theorem faHandle_eq (e : Exc) : FunctionAppService.faHandle e = .queryError := by
  unfold FunctionAppService.faHandle
  split
  · rfl
  · split <;> rfl

theorem faInfoHandle_eq (e : Exc) : FunctionAppService.faInfoHandle e = .queryError := by
  unfold FunctionAppService.faInfoHandle
  split <;> rfl

/-- C6 counterexample: with the resource-group variable unset,
`get_environment_config` raises a `ValueError` naming `resource_group` — not
a `ConfigurationError` as the claim states (the facade converts it later). -/
theorem get_environment_config_raises_value_error :
    get_environment_config envMissingRG ("qa") =
      .error (.valueError, [("resource_group")]) ∧
    raisesConfigurationError (get_environment_config envMissingRG ("qa")) = false :=
  ⟨by decide, by decide⟩

/-- C6 (amended): with the variable triple fully set,
`get_environment_config` returns exactly that triple unchanged; when any of
the three variables is missing or empty it raises a `ValueError` naming
exactly the missing fields, which the SDK facade re-raises as a
`ConfigurationError` with the same diagnostic content. -/
theorem get_environment_config_missing_fields (env : String → Option String)
    (environment s r a : String) :
    (env (strUpper environment ++ "_SUBSCRIPTION_ID") = some s → s ≠ "" →
     env (strUpper environment ++ "_RESOURCE_GROUP") = some r → r ≠ "" →
     env (strUpper environment ++ "_APP_INSIGHTS_NAME") = some a → a ≠ "" →
     get_environment_config env environment =
       .ok { subscription_id := s, resource_group := r, app_insights_name := a }) ∧
    ((strvTruthy (env (strUpper environment ++ "_SUBSCRIPTION_ID")) = false ∨
      strvTruthy (env (strUpper environment ++ "_RESOURCE_GROUP")) = false ∨
      strvTruthy (env (strUpper environment ++ "_APP_INSIGHTS_NAME")) = false) →
     get_environment_config env environment =
       .error (.valueError,
         missingFields (env (strUpper environment ++ "_SUBSCRIPTION_ID"))
           (env (strUpper environment ++ "_RESOURCE_GROUP"))
           (env (strUpper environment ++ "_APP_INSIGHTS_NAME")))) ∧
    (∀ vs vr va : Option String,
      (("subscription_id") ∈ missingFields vs vr va ↔ strvTruthy vs = false) ∧
      (("resource_group") ∈ missingFields vs vr va ↔ strvTruthy vr = false) ∧
      (("app_insights_name") ∈ missingFields vs vr va ↔ strvTruthy va = false)) ∧
    (∀ m, get_environment_config env environment = .error (.valueError, m) →
      sdk_load_config env environment = .error (.configurationError, m)) := by
  refine ⟨?_, ?_, ?_, ?_⟩
  · intro h1 h2 h3 h4 h5 h6
    simp [get_environment_config, h1, h3, h5, strvTruthy, h2, h4, h6]
  · intro hc
    unfold get_environment_config
    rcases hc with h | h | h <;> simp [h]
  · intro vs vr va
    refine ⟨?_, ?_, ?_⟩ <;>
      (cases hS : strvTruthy vs <;> cases hR : strvTruthy vr <;>
        cases hA : strvTruthy va <;> simp [missingFields, hS, hR, hA])
  · intro m h
    unfold sdk_load_config
    rw [h]
    simp

/-- Witness for C6's amended theorem: a fully-set environment triple is
returned unchanged. -/
theorem get_environment_config_missing_fields_example :
    get_environment_config envFull ("dev") =
      .ok { subscription_id := "s1", resource_group := "r1",
            app_insights_name := "a1" } :=
  (get_environment_config_missing_fields envFull ("dev") ("s1") ("r1") ("a1")).1
    (by decide) (by decide) (by decide) (by decide) (by decide) (by decide)

/-- C7 counterexample: when construction of the logs client fails with a
`ClientAuthenticationError`, `LogsService.get_logs` reports the failure to
its caller as a `QueryError`, not as the `AuthenticationError` the claim
states. -/
theorem client_construction_failure_reported_as_query_error :
    LogsService.get_logs (.error .clientAuthenticationError) .nonSuccess
      jdNone (.vtime 0) = .error .queryError ∧
    LogsService.get_logs (.error .clientAuthenticationError) .nonSuccess
      jdNone (.vtime 0) ≠ .error .authenticationError :=
  ⟨rfl, by decide⟩

/-- C7 (amended): the client manager converts a construction-time
`ClientAuthenticationError` into the typed `AuthenticationError`, but the
lazy client access happens inside each operation's try block, so no
domain-service operation surfaces the failure as an `AuthenticationError`:
the nine operations that report the failure to their caller report it as a
`QueryError` (the blanket exception handler re-wraps it), while
`validate_function_app_exists` does not report it at all and returns
`False`; indeed every error `get_logs`, `get_metrics` or
`list_function_apps` can return is a `QueryError`. -/
theorem client_construction_failure_wrapped (qr : QueryOutcome)
    (jd : String → Option Value) (now : Value) (name : String) (hb : Int)
    (apps : Except Exc (List SiteInfo)) (funcs : Except Exc (List String))
    (appRes : Except Exc String)
    (settings : Except Exc (List (String × String))) :
    AzureClientManager.logs_client (.error .clientAuthenticationError) =
      .error .authenticationError ∧
    AzureClientManager.web_client (.error .clientAuthenticationError) =
      .error .authenticationError ∧
    LogsService.get_logs (.error .clientAuthenticationError) qr jd now =
      .error .queryError ∧
    LogsService.search_logs (.error .clientAuthenticationError) qr jd now =
      .error .queryError ∧
    MetricsService.get_metrics (.error .clientAuthenticationError) qr now =
      .error .queryError ∧
    MetricsService.analyze_errors (.error .clientAuthenticationError) qr name hb =
      .error .queryError ∧
    MetricsService.get_function_performance (.error .clientAuthenticationError) qr =
      .error .queryError ∧
    MetricsService.get_timeline_analysis (.error .clientAuthenticationError) qr now =
      .error .queryError ∧
    FunctionAppService.list_function_apps (.error .clientAuthenticationError) apps =
      .error .queryError ∧
    FunctionAppService.list_functions (.error .clientAuthenticationError) funcs =
      .error .queryError ∧
    FunctionAppService.get_function_app_info (.error .clientAuthenticationError)
      appRes settings = .error .queryError ∧
    FunctionAppService.validate_function_app_exists
      (.error .clientAuthenticationError) apps name = .ok false ∧
    (∀ ctor qr2 e, LogsService.get_logs ctor qr2 jd now = .error e →
      e = .queryError) ∧
    (∀ ctor qr2 e, MetricsService.get_metrics ctor qr2 now = .error e →
      e = .queryError) ∧
    (∀ ctor apps2 e, FunctionAppService.list_function_apps ctor apps2 = .error e →
      e = .queryError) := by
  refine ⟨rfl, rfl, rfl, rfl, rfl, rfl, rfl, rfl, rfl, rfl, rfl, rfl, ?_, ?_, ?_⟩
  · intro ctor qr2 e h
    unfold LogsService.get_logs at h
    cases hcl : AzureClientManager.logs_client ctor with
    | error e2 =>
      rw [hcl] at h
      simp [logsQueryHandle_eq] at h
      exact h.symm
    | ok u =>
      rw [hcl] at h
      cases qr2 with
      | success rows => simp at h
      | successNoTables => simp at h
      | nonSuccess => simp at h
      | raises e2 =>
        simp [logsQueryHandle_eq] at h
        exact h.symm
  · intro ctor qr2 e h
    unfold MetricsService.get_metrics at h
    cases hcl : AzureClientManager.logs_client ctor with
    | error e2 =>
      rw [hcl] at h
      simp [logsQueryHandle_eq] at h
      exact h.symm
    | ok u =>
      rw [hcl] at h
      cases qr2 with
      | success rows => simp at h
      | successNoTables => simp at h
      | nonSuccess => simp at h
      | raises e2 =>
        simp [logsQueryHandle_eq] at h
        exact h.symm
  · intro ctor apps2 e h
    unfold FunctionAppService.list_function_apps at h
    cases hcl : AzureClientManager.web_client ctor with
    | error e2 =>
      rw [hcl] at h
      simp [faHandle_eq] at h
      exact h.symm
    | ok u =>
      rw [hcl] at h
      cases apps2 with
      | error e2 =>
        simp [faHandle_eq] at h
        exact h.symm
      | ok l => simp at h

/-- Witness for C7's amended theorem: a raised transport error from the
query call comes back from `get_logs` as a `QueryError`. -/
theorem client_construction_failure_wrapped_example :
    Exc.queryError = Exc.queryError :=
  (client_construction_failure_wrapped (.raises .httpResponseError) jdNone
    (.vtime 0) ("app") 24 (.ok []) (.ok []) (.ok ("app"))
    (.ok [])).2.2.2.2.2.2.2.2.2.2.2.2.1
    (.ok ()) (.raises .httpResponseError) .queryError rfl

/-- C8: when the query-execution call reports a non-success status, every
domain-service query operation returns its empty result — the empty list,
and for `analyze_errors` the designated empty `ErrorAnalysis` — rather than
raising. -/
theorem services_non_success_empty_result (jd : String → Option Value)
    (now : Value) (name : String) (hb : Int) :
    LogsService.get_logs (.ok ()) .nonSuccess jd now = .ok [] ∧
    LogsService.search_logs (.ok ()) .nonSuccess jd now = .ok [] ∧
    MetricsService.get_metrics (.ok ()) .nonSuccess now = .ok [] ∧
    MetricsService.analyze_errors (.ok ()) .nonSuccess name hb =
      .ok { errors := [], total_errors := 0, unique_error_types := 0,
            time_range_hours := hb, function_app_name := name } ∧
    MetricsService.get_function_performance (.ok ()) .nonSuccess = .ok [] ∧
    MetricsService.get_timeline_analysis (.ok ()) .nonSuccess now = .ok [] :=
  ⟨rfl, rfl, rfl, rfl, rfl, rfl⟩

/-- C9 counterexample: `validate_function_app_exists` catches a transport
failure and returns the ordinary value `False` instead of propagating a
typed error, and `get_function_app_info` swallows an app-settings failure
into a partial result with an empty settings map — refuting the claim that
no service-level operation catches such failures. -/
theorem validate_function_app_swallows_errors :
    FunctionAppService.validate_function_app_exists (.ok ())
      (.error .httpResponseError) ("app-1") = .ok false ∧
    FunctionAppService.get_function_app_info (.ok ())
      (.ok ("app-1")) (.error .httpResponseError) = .ok (("app-1"), []) :=
  ⟨rfl, rfl⟩

/-- C9 (amended): failures other than per-row parsing and non-success
statuses reach the caller as the typed `QueryError` from every service
operation, with two exceptions: `validate_function_app_exists` catches
everything and returns `False`, and `get_function_app_info` catches a
failing app-settings call and returns a partial result with empty
settings. -/
theorem service_error_propagation (jd : String → Option Value) (now : Value)
    (name : String) (hb : Int) (e : Exc)
    (settings : Except Exc (List (String × String))) (a : String) :
    LogsService.get_logs (.ok ()) (.raises e) jd now = .error .queryError ∧
    LogsService.search_logs (.ok ()) (.raises e) jd now = .error .queryError ∧
    MetricsService.get_metrics (.ok ()) (.raises e) now = .error .queryError ∧
    MetricsService.analyze_errors (.ok ()) (.raises e) name hb =
      .error .queryError ∧
    MetricsService.get_function_performance (.ok ()) (.raises e) =
      .error .queryError ∧
    MetricsService.get_timeline_analysis (.ok ()) (.raises e) now =
      .error .queryError ∧
    FunctionAppService.list_function_apps (.ok ()) (.error e) =
      .error .queryError ∧
    FunctionAppService.list_functions (.ok ()) (.error e) = .error .queryError ∧
    FunctionAppService.get_function_app_info (.ok ())
      ((.error e : Except Exc String)) settings = .error .queryError ∧
    (∀ name2, FunctionAppService.validate_function_app_exists (.ok ())
      (.error e) name2 = .ok false) ∧
    FunctionAppService.get_function_app_info (.ok ()) (.ok a) (.error e) =
      .ok (a, []) := by
  refine ⟨?_, rfl, ?_, ?_, rfl, rfl, ?_, ?_, ?_, ?_, rfl⟩
  · simp [LogsService.get_logs, AzureClientManager.logs_client, logsQueryHandle_eq]
  · simp [MetricsService.get_metrics, AzureClientManager.logs_client,
      logsQueryHandle_eq]
  · simp [MetricsService.analyze_errors, AzureClientManager.logs_client,
      logsQueryHandle_eq]
  · simp [FunctionAppService.list_function_apps, AzureClientManager.web_client,
      faHandle_eq]
  · simp [FunctionAppService.list_functions, AzureClientManager.web_client,
      faHandle_eq]
  · simp [FunctionAppService.get_function_app_info,
      AzureClientManager.web_client, faInfoHandle_eq]
  · intro name2
    simp [FunctionAppService.validate_function_app_exists,
      FunctionAppService.list_function_apps, AzureClientManager.web_client]

end AzureLoggingTool
